import Mathlib

/-!
Verification development for the in-browser 3DGS PLY decoder and viewer of
this repository (src/frontend/components/GaussianSplatViewer.tsx).

The decoder `parsePLY` is embedded shallowly:
* a buffer is a `List ℕ` of bytes;
* the header text is recovered byte-by-byte (headers are ASCII in this format);
* IEEE-754 binary32 payload fields are decoded exactly from their byte
  pattern (sign / exponent / mantissa) into `JSNum`: a finite exact rational,
  `+Infinity`/`-Infinity`, or `NaN` (exponent 255).  The color pipeline
  (`* C0 + 0.5`, `Math.min`, `Math.max`) is modelled with JavaScript number
  semantics on all three kinds, so a NaN payload stores a NaN channel exactly
  as the program does.  The transcendental size pipeline is stated over the
  reals for finite raws, with IEEE special raws projected to 0 by
  `JSNum.toRat` (a disclosed abstraction: the size claims concern the finite
  formula identity); float rounding of the exact arithmetic is abstracted;
* the JavaScript runtime errors the code can hit (the explicit
  `throw new Error(...)` calls, `DataView` construction and read range errors,
  invalid typed-array lengths) are an explicit error type, so the fallible
  decode is `Except JSErr SplatCloud`;
* JavaScript numeric quirks that the control flow depends on are modelled
  faithfully: `parseInt` (radix-10 digits and the automatic `0x`/`0X` hex
  prefix) returning NaN is `Option Int` with `none` for NaN,
  `new Float32Array(len)` throws a `RangeError` when ToIndex rejects `len`
  (negative, or above 2^53 - 1), `new Float32Array(NaN)` has length 0
  (ToIndex(NaN) = 0), a `for` loop bound of NaN runs zero iterations, and an
  `undefined` property slot makes the read offset NaN, which `ToIndex`
  coerces to 0.  `parseInt`'s double rounding of magnitudes above 2^53 is not
  modelled; all bound comparisons here are on the same side of the ToIndex
  limit for the exact and the rounded value.
-/

/-- One byte buffer: the `Uint8Array` view of the fetched `ArrayBuffer`. -/
abbrev Buffer := List ℕ

/-- Bytes of an ASCII string literal (used to build concrete test buffers). -/
def strBytes (s : String) : List ℕ := s.data.map Char.toNat

/-- Runtime range-error sites in `parsePLY`: the `DataView` constructor
(`new DataView(buffer, headerEnd)` with `headerEnd` beyond the buffer),
a `getFloat32` read past the view, and a negative typed-array length. -/
inductive RangeOp where
  | dataViewConstruct
  | dataViewRead
  | arrayLength
deriving DecidableEq

/-- Errors `parsePLY` can produce: its explicit `throw new Error(msg)` and the
runtime `RangeError`s of the typed-array operations it performs. -/
inductive JSErr where
  | thrown (msg : String)
  | rangeError (op : RangeOp)
deriving DecidableEq

/-- A JavaScript number as the decoder stores it: an exact finite rational,
a signed infinity, or NaN. -/
inductive JSNum where
  | num (q : ℚ)
  | inf (neg : Bool)
  | nan
deriving DecidableEq

instance (n : ℕ) : OfNat JSNum n := ⟨JSNum.num (OfNat.ofNat n)⟩

/-- Finite projection used by the real-valued size pipeline: IEEE special
raws (which the program would propagate through exp/sigmoid/cbrt as JS
specials) are projected to 0 — a disclosed abstraction; the size claims
concern the finite formula identity. -/
def JSNum.toRat : JSNum → ℚ
  | JSNum.num q => q
  | _ => 0

/-- The JavaScript range test `0 <= v && v <= 1`: false for NaN (every
comparison with NaN is false) and for the infinities. -/
def JSNum.in01 : JSNum → Bool
  | JSNum.num q => decide (0 ≤ q) && decide (q ≤ 1)
  | JSNum.inf _ => false
  | JSNum.nan => false

/-- The bytes of the end-of-header sentinel scanned for at lines 23-42:
`end_header`. -/
def sentinelBytes : List ℕ := strBytes "end_header"

/-- Source lines 24-35: the ten byte comparisons at scan position `i`. -/
def matchesAt (bytes : Buffer) (i : ℕ) : Bool :=
  (List.range 10).all fun k => bytes.getD (i + k) 256 == sentinelBytes.getD k 0

/-- Source line 23: `for (let i = 0; i < bytes.length - 10; i++)`, breaking at
the first match.  A negative JavaScript bound runs zero iterations, which
truncated ℕ subtraction reproduces. -/
def findSentinel (bytes : Buffer) : Option ℕ :=
  (List.range (bytes.length - 10)).find? (matchesAt bytes)

/-- Source line 38: `while (headerEnd < bytes.length && bytes[headerEnd] !== 0x0a) headerEnd++`. -/
def skipNL (bytes : Buffer) (p : ℕ) : ℕ :=
  if h : p < bytes.length then
    if bytes.getD p 0 = 10 then p else skipNL bytes (p + 1)
  else p
termination_by bytes.length - p
decreasing_by omega

/-- Source lines 22-42: `headerEnd` after the scan; it stays 0 when the
sentinel never matches, and is one past the newline (or one past the end of
the buffer when no newline follows the sentinel) otherwise. -/
def headerEndOf (bytes : Buffer) : ℕ :=
  match findSentinel bytes with
  | some i => skipNL bytes (i + 10) + 1
  | none => 0

/-- The ASCII view of a byte slice (`TextDecoder.decode`; headers are ASCII). -/
def bytesToString (bs : List ℕ) : String := String.mk (bs.map Char.ofNat)

/-- JavaScript `line.trim().split(/\s+/)` restricted to already-trimmed input:
the empty string splits to `[""]`, anything else to its whitespace-separated
words. -/
def jsSplitWS (s : String) : List String :=
  if s = "" then [""] else (s.split Char.isWhitespace).filter (fun t => t ≠ "")

/-- Decimal value of a digit list. -/
def digitsVal (cs : List Char) : ℕ := cs.foldl (fun a c => 10 * a + (c.toNat - 48)) 0

/-- Hexadecimal digit test (0-9, a-f, A-F). -/
def isHexDigit (c : Char) : Bool :=
  c.isDigit || (97 ≤ c.toNat && c.toNat ≤ 102) || (65 ≤ c.toNat && c.toNat ≤ 70)

/-- Value of one hexadecimal digit. -/
def hexVal (c : Char) : ℕ :=
  if c.isDigit then c.toNat - 48
  else if 97 ≤ c.toNat then c.toNat - 87
  else c.toNat - 55

/-- Hexadecimal value of a digit list. -/
def hexDigitsVal (cs : List Char) : ℕ := cs.foldl (fun a c => 16 * a + hexVal c) 0

/-- The unsigned part of JavaScript `parseInt` with no radix argument: a
`0x`/`0X` prefix switches to radix 16 on the longest hex-digit run, otherwise
the longest decimal-digit run is taken; `none` models NaN (no digits at
all, e.g. `parseInt('0x')` and `parseInt('abc')`). -/
def parseMagJS (cs : List Char) : Option ℕ :=
  match cs with
  | '0' :: c :: rest =>
    if c = 'x' ∨ c = 'X' then
      let ds := rest.takeWhile isHexDigit
      if ds.isEmpty then none else some (hexDigitsVal ds)
    else
      let ds := ('0' :: c :: rest).takeWhile Char.isDigit
      if ds.isEmpty then none else some (digitsVal ds)
  | _ =>
    let ds := cs.takeWhile Char.isDigit
    if ds.isEmpty then none else some (digitsVal ds)

/-- JavaScript `parseInt` on a whitespace-free token: optional sign, then the
radix-10 or `0x`-prefixed radix-16 magnitude; `none` models NaN. -/
def parseIntJS (s : String) : Option Int :=
  match s.data with
  | '-' :: rest => (parseMagJS rest).map (fun v => -(v : Int))
  | '+' :: rest => (parseMagJS rest).map (fun v => (v : Int))
  | cs => (parseMagJS cs).map (fun v => (v : Int))

/-- Source lines 50-57, one header line: `element vertex <tok>` overwrites the
vertex count with `parseInt(tok)` (NaN when the token is absent or
non-numeric), `property <type> <name>` appends the third token (JavaScript
pushes `undefined`, which later coerces to the property key "undefined",
when the line has no third token). -/
def headerLineStep (acc : Option Int × List String) (line : String) :
    Option Int × List String :=
  let parts := jsSplitWS line.trim
  if parts.get? 0 = some "element" ∧ parts.get? 1 = some "vertex" then
    (match parts.get? 2 with
     | some t => parseIntJS t
     | none => none,
     acc.2)
  else if parts.get? 0 = some "property" then
    (acc.1, acc.2 ++ [parts.getD 2 "undefined"])
  else acc

/-- Source lines 44-57: decode the prefix up to `headerEnd`, split into lines,
and fold the directive recognizer; `vertexCount` starts at 0. -/
def headerInfo (bytes : Buffer) : Option Int × List String :=
  ((bytesToString (bytes.take (headerEndOf bytes))).splitOn "\n").foldl
    headerLineStep (some 0, [])

/-- Source lines 62-65: `propIndex[name] = i` under `forEach`, so the LAST
occurrence of a repeated name wins; `none` when the name was never declared. -/
def propIdx (props : List String) (name : String) : Option ℕ :=
  ((props.enum.filter (fun p => p.2 = name)).getLast?).map (fun p => p.1)

/-- Exact value of an IEEE-754 binary32 little-endian byte quadruple.
Sign, 8-bit exponent, 23-bit mantissa; exponent 0 is subnormal; exponent 255
is `±Infinity` for a zero mantissa and `NaN` otherwise, exactly as
`DataView.getFloat32` produces them. -/
def decodeF32 (b0 b1 b2 b3 : ℕ) : JSNum :=
  let w := b0 + 256 * b1 + 65536 * b2 + 16777216 * b3
  let neg : Bool := decide (w / 2 ^ 31 % 2 = 1)
  let e : ℕ := w / 2 ^ 23 % 256
  let m : ℕ := w % 2 ^ 23
  if e = 255 then
    if m = 0 then JSNum.inf neg else JSNum.nan
  else
    let mag : ℚ :=
      if e = 0 then (m : ℚ) / ((2 ^ 149 : ℕ) : ℚ)
      else if e ≤ 150 then ((2 ^ 23 + m : ℕ) : ℚ) / ((2 ^ (150 - e) : ℕ) : ℚ)
      else (((2 ^ 23 + m) * 2 ^ (e - 150) : ℕ) : ℚ)
    JSNum.num (if neg then -mag else mag)

/-- The field decoder state threaded through the per-record loop: the buffer,
the header boundary (the `DataView` byte offset), the record stride
(`properties.length * 4`), the slot of each referenced field, and the three
capability flags of source lines 76-78. -/
structure PCtx where
  bytes : Buffer
  he : ℕ
  stride : ℕ
  ix : Option ℕ
  iy : Option ℕ
  iz : Option ℕ
  ir : Option ℕ
  ig : Option ℕ
  ib : Option ℕ
  iop : Option ℕ
  is0 : Option ℕ
  is1 : Option ℕ
  is2 : Option ℕ
  hasColor : Bool
  hasOpacity : Bool
  hasScale : Bool

/-- Offset actually passed to `getFloat32`: `i*stride + propIndex[name]*4`.
A missing property makes `propIndex[name]` `undefined`, the product and sum
NaN, and `ToIndex(NaN)` is 0, so the read goes to view offset 0. -/
def jsOff (base : ℕ) (slot : Option ℕ) : ℕ :=
  match slot with
  | some k => base + 4 * k
  | none => 0

/-- The `getFloat32` offset of field slot `slot` of record `i`. -/
def fieldOff (c : PCtx) (i : ℕ) (slot : Option ℕ) : ℕ := jsOff (i * c.stride) slot

/-- `DataView.getFloat32` bounds test: the four bytes must fit inside the view
`[headerEnd, bytes.length)`. -/
def inB (c : PCtx) (off : ℕ) : Bool := decide (off + 4 ≤ c.bytes.length - c.he)

/-- Raw value at view offset `off` (total companion of the checked read). -/
def rawAt (bytes : Buffer) (he off : ℕ) : JSNum :=
  decodeF32 (bytes.getD (he + off) 0) (bytes.getD (he + off + 1) 0)
    (bytes.getD (he + off + 2) 0) (bytes.getD (he + off + 3) 0)

/-- `DataView.getFloat32(off, true)`: the decoded float, or a `RangeError`
when the read would go past the view. -/
def getF32 (c : PCtx) (off : ℕ) : Except JSErr JSNum :=
  if inB c off then Except.ok (rawAt c.bytes c.he off)
  else Except.error (JSErr.rangeError RangeOp.dataViewRead)

/-- Raw decoded value of field slot `slot` of record `i`. -/
def rawValOf (c : PCtx) (i : ℕ) (slot : Option ℕ) : JSNum :=
  rawAt c.bytes c.he (fieldOff c i slot)

/-- Finite projection of the raw value of field slot `slot` of record `i`
(the form the real-valued size pipeline consumes). -/
def rawOf (c : PCtx) (i : ℕ) (slot : Option ℕ) : ℚ := (rawValOf c i slot).toRat

/-- The spherical-harmonics constant `C0` of source line 75. -/
def C0const : ℚ := 0.28209479177387814

/-- Source lines 90-92 arithmetic `raw * C0 + 0.5` under JavaScript number
semantics: NaN propagates through `*` and `+`, and `±Infinity` keeps its sign
because `C0` is a positive finite constant and `0.5` is finite. -/
def shToColor (v : JSNum) : JSNum :=
  match v with
  | JSNum.num q => JSNum.num (q * C0const + 0.5)
  | JSNum.inf b => JSNum.inf b
  | JSNum.nan => JSNum.nan

/-- `Math.min(1, v)`: NaN gives NaN, `min(1, +Infinity) = 1`,
`min(1, -Infinity) = -Infinity`. -/
def jsMin1 : JSNum → JSNum
  | JSNum.num q => JSNum.num (min 1 q)
  | JSNum.inf false => JSNum.num 1
  | JSNum.inf true => JSNum.inf true
  | JSNum.nan => JSNum.nan

/-- `Math.max(0, v)`: NaN gives NaN, `max(0, -Infinity) = 0`,
`max(0, +Infinity) = +Infinity`. -/
def jsMax0 : JSNum → JSNum
  | JSNum.num q => JSNum.num (max 0 q)
  | JSNum.inf false => JSNum.inf false
  | JSNum.inf true => JSNum.num 0
  | JSNum.nan => JSNum.nan

/-- Source lines 93-95: `Math.max(0, Math.min(1, r))` under JavaScript
semantics (a NaN channel stays NaN). -/
def clampJS (v : JSNum) : JSNum := jsMax0 (jsMin1 v)

/-- Source lines 88-100: the color triple of record `i` — clamped affine image
of the three DC coefficients when `f_dc_0` is declared, opaque white
otherwise. -/
def colorOf (c : PCtx) (i : ℕ) : List JSNum :=
  if c.hasColor then
    [clampJS (shToColor (rawValOf c i c.ir)),
     clampJS (shToColor (rawValOf c i c.ig)),
     clampJS (shToColor (rawValOf c i c.ib))]
  else [1, 1, 1]

/-- Source line 84-86: the position triple of record `i`, read as stored. -/
def posVal (c : PCtx) (i : ℕ) : List JSNum :=
  [rawValOf c i c.ix, rawValOf c i c.iy, rawValOf c i c.iz]

/-- Source lines 104-108: `Math.cbrt(s0*s1*s2) * opacity * 50` with
`opacity = 1/(1+e^-raw)` and `s_j = e^raw_j`; the cube root of the positive
product is its real 1/3 power. -/
noncomputable def sizeFormula (op s0 s1 s2 : ℚ) : ℝ :=
  (Real.exp s0 * Real.exp s1 * Real.exp s2) ^ ((1 : ℝ) / 3) *
    (1 / (1 + Real.exp (-(op : ℝ)))) * 50

/-- Source lines 102-111: the size of record `i` — the opacity/scale formula
when both `opacity` and `scale_0` are declared, the fixed default `2.0`
otherwise. -/
noncomputable def sizeVal (c : PCtx) (i : ℕ) : ℝ :=
  if c.hasOpacity && c.hasScale then
    sizeFormula (rawOf c i c.iop) (rawOf c i c.is0) (rawOf c i c.is1) (rawOf c i c.is2)
  else 2

/-- All `getFloat32` reads of record `i` are inside the view: positions
always, colors when `hasColor`, opacity and scales when both size flags are
set.  `decodeVertex` succeeds exactly when this holds. -/
def readsOK (c : PCtx) (i : ℕ) : Bool :=
  inB c (fieldOff c i c.ix) && inB c (fieldOff c i c.iy) && inB c (fieldOff c i c.iz) &&
  (!c.hasColor || (inB c (fieldOff c i c.ir) && inB c (fieldOff c i c.ig) &&
    inB c (fieldOff c i c.ib))) &&
  (!(c.hasOpacity && c.hasScale) || (inB c (fieldOff c i c.iop) &&
    inB c (fieldOff c i c.is0) && inB c (fieldOff c i c.is1) && inB c (fieldOff c i c.is2)))

/-- Source lines 88-100, the color block of one loop iteration: read the
three DC coefficients when `f_dc_0` was declared (lines 90-92, each read can
raise), convert and clamp; constant white otherwise. -/
def colorRead (c : PCtx) (i : ℕ) : Except JSErr (List JSNum) :=
  if c.hasColor then do
    let r ← getF32 c (fieldOff c i c.ir)
    let g ← getF32 c (fieldOff c i c.ig)
    let b ← getF32 c (fieldOff c i c.ib)
    pure [clampJS (shToColor r), clampJS (shToColor g), clampJS (shToColor b)]
  else pure [1, 1, 1]

/-- Source lines 102-111, the size block of one loop iteration: read opacity
and the three scale axes when both `opacity` and `scale_0` were declared
(lines 104-107, each read can raise) and combine them; the constant default
`2.0` otherwise. -/
noncomputable def sizeRead (c : PCtx) (i : ℕ) : Except JSErr ℝ :=
  if c.hasOpacity && c.hasScale then do
    let op ← getF32 c (fieldOff c i c.iop)
    let s0 ← getF32 c (fieldOff c i c.is0)
    let s1 ← getF32 c (fieldOff c i c.is1)
    let s2 ← getF32 c (fieldOff c i c.is2)
    pure (sizeFormula op.toRat s0.toRat s1.toRat s2.toRat)
  else pure ((2 : ℝ))

/-- Source lines 80-112, one loop iteration: the reads of record `i` in source
order, each able to raise the `DataView` `RangeError`. -/
noncomputable def decodeVertex (c : PCtx) (i : ℕ) :
    Except JSErr (List JSNum × List JSNum × ℝ) := do
  let x ← getF32 c (fieldOff c i c.ix)
  let y ← getF32 c (fieldOff c i c.iy)
  let z ← getF32 c (fieldOff c i c.iz)
  let col ← colorRead c i
  let size ← sizeRead c i
  pure ([x, y, z], col, size)

/-- The per-record loop of source lines 80-112: records 0..n-1 in order; the
indexed stores into the preallocated arrays at `i*3..i*3+2` and `i` are the
in-order concatenation of the per-record triples and sizes. -/
noncomputable def decodeLoop (c : PCtx) :
    ℕ → Except JSErr (List JSNum × List JSNum × List ℝ)
  | 0 => Except.ok ([], [], [])
  | n + 1 =>
    match decodeLoop c n with
    | Except.ok r =>
      match decodeVertex c n with
      | Except.ok v => Except.ok (r.1 ++ v.1, r.2.1 ++ v.2.1, r.2.2 ++ [v.2.2])
      | Except.error e => Except.error e
    | Except.error e => Except.error e

/-- The decoded cloud returned at source line 114.  `vertexCount` mirrors the
JavaScript number, `none` being NaN (a non-numeric `element vertex` token). -/
structure SplatCloud where
  positions : List JSNum
  colors : List JSNum
  sizes : List ℝ
  vertexCount : Option Int

/-- `new Float32Array(vertexCount * 3)` (source line 71): ECMAScript ToIndex
throws a `RangeError` for a negative length and for a length above
2^53 - 1; NaN coerces to length 0 and does not throw.  (Allocation-failure
RangeErrors for ToIndex-valid but memory-exceeding lengths are outside the
model.) -/
def arrayLenBad : Option Int → Bool
  | some n => decide (n < 0) || decide ((2 ^ 53 - 1 : Int) < 3 * n)
  | none => false

/-- Iterations of `for (let i = 0; i < vertexCount; i++)`: `i < NaN` is false,
so a NaN count runs zero iterations. -/
def loopCount : Option Int → ℕ
  | some n => n.toNat
  | none => 0

/-- The decode context extracted from a buffer by source lines 44-78. -/
def ctxOf (bytes : Buffer) : PCtx :=
  let props := (headerInfo bytes).2
  { bytes := bytes
    he := headerEndOf bytes
    stride := props.length * 4
    ix := propIdx props "x"
    iy := propIdx props "y"
    iz := propIdx props "z"
    ir := propIdx props "f_dc_0"
    ig := propIdx props "f_dc_1"
    ib := propIdx props "f_dc_2"
    iop := propIdx props "opacity"
    is0 := propIdx props "scale_0"
    is1 := propIdx props "scale_1"
    is2 := propIdx props "scale_2"
    hasColor := (propIdx props "f_dc_0").isSome
    hasOpacity := (propIdx props "opacity").isSome
    hasScale := (propIdx props "scale_0").isSome }

/-- Source lines 17-115, `parsePLY`: header scan and parse, the
`vertexCount === 0` guard (line 59, `throw new Error('No vertices found in
PLY')` spelled with straight quotes in the source), the `DataView`
construction (line 69, `RangeError` when `headerEnd` exceeds the buffer), the
typed-array allocations (lines 71-73, `RangeError` when ToIndex rejects the
length: negative, or above 2^53 - 1), then the per-record loop. -/
noncomputable def parsePLY (bytes : Buffer) : Except JSErr SplatCloud :=
  let vc := (headerInfo bytes).1
  if vc = some 0 then Except.error (JSErr.thrown "No vertices found in PLY")
  else if bytes.length < headerEndOf bytes then
    Except.error (JSErr.rangeError RangeOp.dataViewConstruct)
  else if arrayLenBad vc then Except.error (JSErr.rangeError RangeOp.arrayLength)
  else
    match decodeLoop (ctxOf bytes) (loopCount vc) with
    | Except.ok r => Except.ok ⟨r.1, r.2.1, r.2.2, vc⟩
    | Except.error e => Except.error e

/-- Source lines 136-146 and 228-233, the viewer load boundary around the
decoder: the `byteLength < 100` guard throws
`Error('PLY file is empty or too small')` before `parsePLY` is ever invoked,
and every thrown error is caught and mapped to the error state
"Failed to load 3D model: " ++ message. -/
def errMessage : JSErr → String
  | JSErr.thrown m => m
  | JSErr.rangeError _ => "RangeError"

/-- The fetch-success part of `init` (source lines 140-146 with the catch of
lines 228-233): size guard, then decode, errors mapped to the `error` state
string. -/
noncomputable def viewerLoad (bytes : Buffer) : Except String SplatCloud :=
  if bytes.length < 100 then
    Except.error ("Failed to load 3D model: " ++ "PLY file is empty or too small")
  else
    match parsePLY bytes with
    | Except.ok c => Except.ok c
    | Except.error e => Except.error ("Failed to load 3D model: " ++ errMessage e)


/-- The color flags of the boundedness condition: all color reads in bounds
unless `hasColor` is off. -/
def colorOK (c : PCtx) (i : ℕ) : Bool :=
  !c.hasColor || (inB c (fieldOff c i c.ir) && inB c (fieldOff c i c.ig) &&
    inB c (fieldOff c i c.ib))

/-- The size flags of the boundedness condition: all size reads in bounds
unless the size branch is off. -/
def sizeOK (c : PCtx) (i : ℕ) : Bool :=
  !(c.hasOpacity && c.hasScale) || (inB c (fieldOff c i c.iop) &&
    inB c (fieldOff c i c.is0) && inB c (fieldOff c i c.is1) &&
    inB c (fieldOff c i c.is2))

/-- A 95-byte buffer: minimal header with fields x,y,z only, one vertex, and
a 12-byte all-zero payload. -/
def bufXYZ : Buffer :=
  strBytes "ply\nelement vertex 1\nproperty float x\nproperty float y\nproperty float z\nend_header\n"
    ++ List.replicate 12 0

def cloudXYZ : SplatCloud := ⟨[0, 0, 0], [1, 1, 1], [2], some 1⟩

/-- The slot of the `j`-th DC color channel field `f_dc_j`. -/
def fdcSlot (c : PCtx) : ℕ → Option ℕ
  | 0 => c.ir
  | 1 => c.ig
  | _ => c.ib

/-- A 173-byte buffer with one vertex and color fields: zero position, raw DC
coefficients (+100, 0, -100), so the three channels exercise clamp-high,
mid-range, and clamp-low. -/
def bufColor : Buffer :=
  strBytes "ply\nelement vertex 1\nproperty float x\nproperty float y\nproperty float z\nproperty float f_dc_0\nproperty float f_dc_1\nproperty float f_dc_2\nend_header\n"
    ++ List.replicate 12 0 ++ [0, 0, 200, 66] ++ List.replicate 4 0 ++ [0, 0, 200, 194]

def cloudColor : SplatCloud := ⟨[0, 0, 0], [1, JSNum.num (1/2), 0], [2], some 1⟩

/-- A 203-byte buffer with one vertex carrying opacity raw 10.0 and scale
raws 0.0 (the spec's worked example record). -/
def bufSize : Buffer :=
  strBytes "ply\nelement vertex 1\nproperty float x\nproperty float y\nproperty float z\nproperty float opacity\nproperty float scale_0\nproperty float scale_1\nproperty float scale_2\nend_header\n"
    ++ List.replicate 12 0 ++ [0, 0, 32, 65] ++ List.replicate 12 0

noncomputable def cloudSize : SplatCloud := ⟨[0, 0, 0], [1, 1, 1], [sizeFormula 10 0 0 0], some 1⟩

/-- A 146-byte buffer: six declared float fields x,y,z,a,b,c (stride 24) with
one vertex, but only 12 payload bytes — exactly HALF the declared payload.
The loop reads only x,y,z (offsets 0..11), so it never touches the missing
half. -/
def bufHalf : Buffer :=
  strBytes "ply\nelement vertex 1\nproperty float x\nproperty float y\nproperty float z\nproperty float a\nproperty float b\nproperty float c\nend_header\n"
    ++ List.replicate 12 0

def cloudHalf : SplatCloud := ⟨[0, 0, 0], [1, 1, 1], [2], some 1⟩

/-- A 49-byte buffer declaring `element vertex 0`. -/
def bufZero : Buffer :=
  strBytes "ply\nelement vertex 0\nproperty float x\nend_header\n"

/-- An 86-byte buffer: x,y,z header declaring one vertex but carrying only a
3-byte payload, so even the very first `getFloat32` read is out of range. -/
def bufCut : Buffer :=
  strBytes "ply\nelement vertex 1\nproperty float x\nproperty float y\nproperty float z\nend_header\n"
    ++ List.replicate 3 0

/-- A sentinel-free buffer: its header-like text never contains `end_header`. -/
def bufNoHdr : Buffer :=
  strBytes "ply\nelement vertex 5\nproperty float x\nno terminator at all"

/-- The teardown actions of the cleanup closure init returns (source lines
217-227), one constructor per statement:
`window.removeEventListener` (line 218), `cancelAnimationFrame` (line 219),
`controls?.dispose()` (line 220, this also releases the pointer listeners
OrbitControls owns), `container.removeChild(renderer.domElement)`
(lines 221-223), `renderer?.dispose()` (line 224), `geometry.dispose()`
(line 225), `material.dispose()` (line 226). -/
inductive Teardown where
  | removeResizeListener
  | cancelFrame
  | disposeControls
  | removeCanvas
  | disposeRenderer
  | disposeGeometry
  | disposeMaterial
deriving DecidableEq

/-- The cleanup closure body, in the order the source executes it. -/
def cleanupActions : List Teardown :=
  [Teardown.removeResizeListener, Teardown.cancelFrame, Teardown.disposeControls,
   Teardown.removeCanvas, Teardown.disposeRenderer, Teardown.disposeGeometry,
   Teardown.disposeMaterial]

/-- Observable events of one viewer load/unmount episode. -/
inductive VEvent where
  | fetchStart
  | unmountCleanupCall
  | fetchResolve
  | stateUpdate (field : String)
  | appendCanvas
  | renderFrame
  | runTeardown (a : Teardown)
deriving DecidableEq

/-- The steps init performs after the awaited fetch resolves, from source
lines 140-215 in execution order: `setPointCount` (line 146), canvas append
(line 187), `setLoading(false)` (line 196), and the first `animate()` call
(line 204), which renders one frame synchronously before yielding. -/
def postFetchEvents : List VEvent :=
  [VEvent.stateUpdate "pointCount", VEvent.appendCanvas,
   VEvent.stateUpdate "loading", VEvent.renderFrame]

/-- Event-loop model of the effect wiring of source lines 123-240:
`const cleanup = init(); return () => { cleanup.then((fn) => fn?.()) }`.
The effect destructor only chains the teardown onto the init promise — there
is no abort signal and no generation guard — so when unmount happens while
the fetch is still pending, the resumed init continuation still runs every
post-fetch step, and the teardown closure runs only after init completes. -/
def unmountDuringFetchTrace : List VEvent :=
  [VEvent.fetchStart, VEvent.unmountCleanupCall, VEvent.fetchResolve] ++
    postFetchEvents ++ cleanupActions.map VEvent.runTeardown

/-- A 51-byte buffer whose header declares `element vertex abc`: `parseInt`
yields NaN, which is not `=== 0`, `Float32Array(NaN * 3)` has length 0, and
the loop bound NaN runs zero iterations. -/
def bufNaN : Buffer :=
  strBytes "ply\nelement vertex abc\nproperty float x\nend_header\n"

/-- A 66-byte buffer declaring 2^53 vertices: `parseInt` reads the 16-digit
token exactly, and `Float32Array(vertexCount * 3)` must throw the ToIndex
`RangeError` before any payload read. -/
def bufHuge : Buffer :=
  strBytes "ply\nelement vertex 9007199254740992\nproperty float x\nend_header\n"

/-- Like `bufColor` but record 0's `f_dc_0` payload is the IEEE-754 NaN bit
pattern 0x7FC00000 (little-endian bytes 00 00 C0 7F); `f_dc_1` and `f_dc_2`
are 0. -/
def bufNaNColor : Buffer :=
  strBytes "ply\nelement vertex 1\nproperty float x\nproperty float y\nproperty float z\nproperty float f_dc_0\nproperty float f_dc_1\nproperty float f_dc_2\nend_header\n"
    ++ List.replicate 12 0 ++ [0, 0, 192, 127] ++ List.replicate 8 0

def cloudNaNColor : SplatCloud :=
  ⟨[0, 0, 0], [JSNum.nan, JSNum.num (1/2), JSNum.num (1/2)], [2], some 1⟩

lemma readsOK_eq (c : PCtx) (i : ℕ) :
    readsOK c i = (inB c (fieldOff c i c.ix) && inB c (fieldOff c i c.iy) &&
      inB c (fieldOff c i c.iz) && colorOK c i && sizeOK c i) := rfl

lemma getF32_bind {β : Type} (c : PCtx) (off : ℕ) (f : JSNum → Except JSErr β) :
    (getF32 c off >>= f) =
      if inB c off then f (rawAt c.bytes c.he off)
      else Except.error (JSErr.rangeError RangeOp.dataViewRead) := by
  unfold getF32
  cases inB c off <;> rfl

lemma parseIntJS_hex_example : parseIntJS "0x10" = some 16 := by decide

lemma parseIntJS_dec_example :
    parseIntJS "9007199254740992" = some 9007199254740992 := by decide

lemma parseIntJS_nan_example : parseIntJS "abc" = none := by decide

lemma colorRead_eq (c : PCtx) (i : ℕ) :
    colorRead c i =
      if colorOK c i then Except.ok (colorOf c i)
      else Except.error (JSErr.rangeError RangeOp.dataViewRead) := by
  unfold colorRead
  cases hc : c.hasColor
  · simp [colorOK, colorOf, hc, Pure.pure, Except.pure]
  · simp only [if_true]
    rw [getF32_bind]
    cases hr : inB c (fieldOff c i c.ir)
    · simp [colorOK, hc, hr]
    · simp only [if_true]
      rw [getF32_bind]
      cases hg : inB c (fieldOff c i c.ig)
      · simp [colorOK, hc, hr, hg]
      · simp only [if_true]
        rw [getF32_bind]
        cases hb : inB c (fieldOff c i c.ib)
        · simp [colorOK, hc, hr, hg, hb]
        · simp [colorOK, colorOf, hc, hr, hg, hb, rawValOf, Pure.pure, Except.pure]

lemma sizeRead_eq (c : PCtx) (i : ℕ) :
    sizeRead c i =
      if sizeOK c i then Except.ok (sizeVal c i)
      else Except.error (JSErr.rangeError RangeOp.dataViewRead) := by
  unfold sizeRead
  cases hf : c.hasOpacity && c.hasScale
  · simp [sizeOK, sizeVal, hf, Pure.pure, Except.pure]
  · simp only [if_true]
    rw [getF32_bind]
    cases h0 : inB c (fieldOff c i c.iop)
    · simp [sizeOK, hf, h0]
    · simp only [if_true]
      rw [getF32_bind]
      cases h1 : inB c (fieldOff c i c.is0)
      · simp [sizeOK, hf, h0, h1]
      · simp only [if_true]
        rw [getF32_bind]
        cases h2 : inB c (fieldOff c i c.is1)
        · simp [sizeOK, hf, h0, h1, h2]
        · simp only [if_true]
          rw [getF32_bind]
          cases h3 : inB c (fieldOff c i c.is2)
          · simp [sizeOK, hf, h0, h1, h2, h3]
          · simp [sizeOK, sizeVal, hf, h0, h1, h2, h3, rawOf, rawValOf,
              Pure.pure, Except.pure]

lemma decodeVertex_eq (c : PCtx) (i : ℕ) :
    decodeVertex c i =
      if readsOK c i then Except.ok (posVal c i, colorOf c i, sizeVal c i)
      else Except.error (JSErr.rangeError RangeOp.dataViewRead) := by
  unfold decodeVertex
  rw [getF32_bind]
  cases hx : inB c (fieldOff c i c.ix)
  · simp [readsOK_eq, hx]
  · simp only [if_true]
    rw [getF32_bind]
    cases hy : inB c (fieldOff c i c.iy)
    · simp [readsOK_eq, hx, hy]
    · simp only [if_true]
      rw [getF32_bind]
      cases hz : inB c (fieldOff c i c.iz)
      · simp [readsOK_eq, hx, hy, hz]
      · simp only [if_true]
        rw [show (colorRead c i >>= fun col => sizeRead c i >>= fun size =>
              pure ([rawAt c.bytes c.he (fieldOff c i c.ix),
                rawAt c.bytes c.he (fieldOff c i c.iy),
                rawAt c.bytes c.he (fieldOff c i c.iz)], col, size) :
              Except JSErr (List JSNum × List JSNum × ℝ)) = _ from rfl]
        rw [colorRead_eq]
        cases hcol : colorOK c i
        · simp [readsOK_eq, hx, hy, hz, hcol, Bind.bind, Except.bind]
        · simp only [if_true]
          rw [show ((Except.ok (colorOf c i) : Except JSErr (List JSNum)) >>=
                fun col => sizeRead c i >>= fun size =>
                pure ([rawAt c.bytes c.he (fieldOff c i c.ix),
                  rawAt c.bytes c.he (fieldOff c i c.iy),
                  rawAt c.bytes c.he (fieldOff c i c.iz)], col, size) :
                Except JSErr (List JSNum × List JSNum × ℝ)) =
              (sizeRead c i >>= fun size =>
                pure ([rawAt c.bytes c.he (fieldOff c i c.ix),
                  rawAt c.bytes c.he (fieldOff c i c.iy),
                  rawAt c.bytes c.he (fieldOff c i c.iz)], colorOf c i, size)) from rfl]
          rw [sizeRead_eq]
          cases hsz : sizeOK c i
          · simp [readsOK_eq, hx, hy, hz, hcol, hsz, Bind.bind, Except.bind]
          · simp [readsOK_eq, hx, hy, hz, hcol, hsz, posVal, rawValOf,
              Bind.bind, Except.bind, Pure.pure, Except.pure]

lemma decodeLoop_zero (c : PCtx) : decodeLoop c 0 = Except.ok ([], [], []) := rfl

lemma decodeLoop_eq (c : PCtx) (n : ℕ) :
    decodeLoop c n =
      if (List.range n).all (readsOK c) then
        Except.ok ((List.range n).flatMap (posVal c),
          (List.range n).flatMap (colorOf c), (List.range n).map (sizeVal c))
      else Except.error (JSErr.rangeError RangeOp.dataViewRead) := by
  induction n with
  | zero => simp [decodeLoop_zero]
  | succ n ih =>
    rw [decodeLoop, ih, decodeVertex_eq, List.range_succ]
    cases hall : (List.range n).all (readsOK c) <;>
      cases hn : readsOK c n <;>
        simp [List.all_append, hall, hn]

lemma parsePLY_ok (bytes : Buffer) (cl : SplatCloud)
    (h : parsePLY bytes = Except.ok cl) :
    cl.vertexCount = (headerInfo bytes).1 ∧
    (headerInfo bytes).1 ≠ some 0 ∧
    arrayLenBad (headerInfo bytes).1 = false ∧
    headerEndOf bytes ≤ bytes.length ∧
    (List.range (loopCount (headerInfo bytes).1)).all (readsOK (ctxOf bytes)) = true ∧
    cl.positions =
      (List.range (loopCount (headerInfo bytes).1)).flatMap (posVal (ctxOf bytes)) ∧
    cl.colors =
      (List.range (loopCount (headerInfo bytes).1)).flatMap (colorOf (ctxOf bytes)) ∧
    cl.sizes =
      (List.range (loopCount (headerInfo bytes).1)).map (sizeVal (ctxOf bytes)) := by
  unfold parsePLY at h
  by_cases h0 : (headerInfo bytes).1 = some 0
  · simp [h0] at h
  · rw [if_neg h0] at h
    by_cases h1 : bytes.length < headerEndOf bytes
    · simp [h1] at h
    · rw [if_neg h1] at h
      cases h2 : arrayLenBad (headerInfo bytes).1
      · rw [h2] at h
        simp only [Bool.false_eq_true, if_false] at h
        rw [decodeLoop_eq] at h
        cases h3 : (List.range (loopCount (headerInfo bytes).1)).all (readsOK (ctxOf bytes))
        · rw [h3] at h
          simp at h
        · rw [h3] at h
          simp only [if_true] at h
          cases hcl : cl
          rw [hcl] at h
          simp only [Except.ok.injEq, SplatCloud.mk.injEq] at h
          obtain ⟨hp, hc, hs, hv⟩ := h
          refine ⟨hv.symm, h0, rfl, Nat.le_of_not_lt h1, rfl, hp.symm, hc.symm, hs.symm⟩
      · rw [h2] at h
        simp at h

lemma parsePLY_zero (bytes : Buffer) (h : (headerInfo bytes).1 = some 0) :
    parsePLY bytes = Except.error (JSErr.thrown "No vertices found in PLY") := by
  unfold parsePLY
  rw [if_pos h]

lemma parsePLY_error_read (bytes : Buffer)
    (h0 : (headerInfo bytes).1 ≠ some 0)
    (h1 : headerEndOf bytes ≤ bytes.length)
    (h2 : arrayLenBad (headerInfo bytes).1 = false)
    (h3 : (List.range (loopCount (headerInfo bytes).1)).all (readsOK (ctxOf bytes)) = false) :
    parsePLY bytes = Except.error (JSErr.rangeError RangeOp.dataViewRead) := by
  unfold parsePLY
  rw [if_neg h0, if_neg (Nat.not_lt.mpr h1), h2]
  simp only [Bool.false_eq_true, if_false]
  rw [decodeLoop_eq, h3]
  simp

lemma posVal_length (c : PCtx) (i : ℕ) : (posVal c i).length = 3 := rfl

lemma colorOf_length (c : PCtx) (i : ℕ) : (colorOf c i).length = 3 := by
  unfold colorOf
  split <;> rfl

lemma flatMap_triple_length {α β : Type} (f : α → List β) (hf : ∀ a, (f a).length = 3)
    (l : List α) : (l.flatMap f).length = 3 * l.length := by
  induction l with
  | nil => simp
  | cons a t ih =>
    simp only [List.flatMap_cons, List.length_append, List.length_cons, ih, hf]
    ring

lemma flatMap_triple_get {β : Type} (f : ℕ → List β) (hf : ∀ i, (f i).length = 3)
    (n v j : ℕ) (hv : v < n) (hj : j < 3) :
    ((List.range n).flatMap f).get? (3 * v + j) = (f v).get? j := by
  induction n with
  | zero => omega
  | succ n ih =>
    rw [List.range_succ, List.flatMap_append]
    have hlen : ((List.range n).flatMap f).length = 3 * n := by
      rw [flatMap_triple_length f hf, List.length_range]
    rcases Nat.lt_succ_iff_lt_or_eq.mp hv with h | h
    · rw [List.get?_append]
      · exact ih h
      · rw [hlen]; omega
    · subst h
      rw [List.get?_append_right (by rw [hlen]; omega)]
      rw [hlen]
      have : 3 * v + j - 3 * v = j := by omega
      rw [this]
      simp only [List.flatMap_cons, List.flatMap_nil, List.append_nil]

lemma range_map_get {β : Type} (f : ℕ → β) (n v : ℕ) (hv : v < n) :
    ((List.range n).map f).get? v = some (f v) := by
  rw [List.get?_map, List.get?_range hv]
  rfl

lemma bufXYZ_parse : parsePLY bufXYZ = Except.ok cloudXYZ := by
  with_unfolding_all rfl

lemma parsePLY_ok_lengths (bytes : Buffer) (cl : SplatCloud)
    (h : parsePLY bytes = Except.ok cl) :
    cl.positions.length = 3 * loopCount cl.vertexCount ∧
    cl.colors.length = 3 * loopCount cl.vertexCount ∧
    cl.sizes.length = loopCount cl.vertexCount := by
  obtain ⟨hv, _, _, _, _, hp, hc, hs⟩ := parsePLY_ok bytes cl h
  rw [hv]
  refine ⟨?_, ?_, ?_⟩
  · rw [hp, flatMap_triple_length _ (posVal_length _), List.length_range]
  · rw [hc, flatMap_triple_length _ (colorOf_length _), List.length_range]
  · rw [hs, List.length_map, List.length_range]

lemma parsePLY_ok_count_pos (bytes : Buffer) (cl : SplatCloud)
    (h : parsePLY bytes = Except.ok cl) (n : ℤ) (hn : cl.vertexCount = some n) :
    0 < n := by
  obtain ⟨hv, h0, hneg, _, _, _, _, _⟩ := parsePLY_ok bytes cl h
  rw [hn] at hv
  rcases lt_trichotomy n 0 with h' | h' | h'
  · rw [← hv] at hneg
    simp [arrayLenBad] at hneg
    omega
  · exact absurd (by rw [← hv, h']) h0
  · exact h'

/-- C1 (amended): whenever `parsePLY` succeeds and the `element vertex` token
parsed to a number `n`, that number is positive and the arrays have exactly
the declared shape (`3n`, `3n`, `n`); when the token failed numeric parsing
(`parseInt` gave NaN, modelled as `none`), the decoder still succeeds but
returns empty arrays with a NaN count. -/
theorem C1_shape_invariant (bytes : Buffer) (cl : SplatCloud)
    (h : parsePLY bytes = Except.ok cl) :
    (∀ n : ℤ, cl.vertexCount = some n →
      0 < n ∧ cl.positions.length = 3 * n.toNat ∧
      cl.colors.length = 3 * n.toNat ∧ cl.sizes.length = n.toNat) ∧
    (cl.vertexCount = none →
      cl.positions = [] ∧ cl.colors = [] ∧ cl.sizes = []) := by
  obtain ⟨hl1, hl2, hl3⟩ := parsePLY_ok_lengths bytes cl h
  constructor
  · intro n hn
    refine ⟨parsePLY_ok_count_pos bytes cl h n hn, ?_, ?_, ?_⟩
    · rw [hl1, hn]; rfl
    · rw [hl2, hn]; rfl
    · rw [hl3, hn]; rfl
  · intro hn
    obtain ⟨_, _, _, _, _, hp, hc, hs⟩ := parsePLY_ok bytes cl h
    have hz : loopCount (headerInfo bytes).1 = 0 := by
      obtain ⟨hv, _⟩ := parsePLY_ok bytes cl h
      rw [← hv, hn]
      rfl
    rw [hp, hc, hs, hz]
    exact ⟨rfl, rfl, rfl⟩

/-- C1 counterexample: on `bufNaN` the decoder SUCCEEDS although the declared
vertex-count token is non-numeric — the returned count is NaN (`none`) and
the arrays are empty, so there is no number `count` for which
`positions.length = 3*count` relates the output to the header declaration;
the JavaScript shape equation `0 == 3*NaN` is itself false. -/
theorem C1_nan_count_cex :
    parsePLY bufNaN = Except.ok ⟨[], [], [], none⟩ ∧
    parseIntJS "abc" = none ∧
    (headerInfo bufNaN).1 = none := by
  refine ⟨by with_unfolding_all rfl, by decide, by with_unfolding_all decide⟩

/-- C1 witness: the amended theorem applied to the concrete 95-byte
x,y,z-only one-vertex buffer. -/
theorem C1_shape_invariant_witness :
    parsePLY bufXYZ = Except.ok cloudXYZ ∧
    cloudXYZ.vertexCount = some 1 ∧
    cloudXYZ.positions.length = 3 ∧ cloudXYZ.colors.length = 3 ∧
    cloudXYZ.sizes.length = 1 := by
  have h := (C1_shape_invariant bufXYZ cloudXYZ bufXYZ_parse).1 1 rfl
  exact ⟨bufXYZ_parse, rfl, h.2.1, h.2.2.1, h.2.2.2⟩

/-- C7: the decoder is a pure function of the buffer — two runs on the same
bytes return identical positions, colors, sizes, and count. -/
theorem C7_deterministic (bytes : Buffer) (c1 c2 : SplatCloud)
    (h1 : parsePLY bytes = Except.ok c1) (h2 : parsePLY bytes = Except.ok c2) :
    c1.positions = c2.positions ∧ c1.colors = c2.colors ∧
    c1.sizes = c2.sizes ∧ c1.vertexCount = c2.vertexCount := by
  rw [h1] at h2
  injection h2 with h
  rw [h]
  exact ⟨rfl, rfl, rfl, rfl⟩

/-- C7 witness: two runs on the concrete buffer `bufXYZ`. -/
theorem C7_deterministic_witness :
    cloudXYZ.positions = cloudXYZ.positions ∧ cloudXYZ.colors = cloudXYZ.colors ∧
    cloudXYZ.sizes = cloudXYZ.sizes ∧ cloudXYZ.vertexCount = cloudXYZ.vertexCount :=
  C7_deterministic bufXYZ cloudXYZ cloudXYZ bufXYZ_parse bufXYZ_parse

lemma clampJS_num_in01 (q : ℚ) : (JSNum.num (max 0 (min 1 q))).in01 = true := by
  unfold JSNum.in01
  simp only [Bool.and_eq_true, decide_eq_true_eq]
  exact ⟨le_max_left 0 _, max_le (by norm_num) (min_le_left 1 q)⟩

lemma clampJS_cases (v : JSNum) :
    clampJS v = JSNum.nan ∨ (clampJS v).in01 = true := by
  cases v with
  | num q => exact Or.inr (clampJS_num_in01 q)
  | inf b =>
    cases b
    · right
      show (JSNum.num (max 0 1)).in01 = true
      exact clampJS_num_in01 1
    · right
      with_unfolding_all decide
  | nan => exact Or.inl rfl

lemma colorOf_get (c : PCtx) (v j : ℕ) (hc : c.hasColor = true) (hj : j < 3) :
    (colorOf c v).get? j =
      some (clampJS (shToColor (rawValOf c v (fdcSlot c j)))) := by
  unfold colorOf fdcSlot
  rw [if_pos hc]
  interval_cases j <;> rfl

/-- C3 (amended): when the file provides color fields, every stored color
channel is exactly `Math.max(0, Math.min(1, raw * 0.28209479177387814 + 0.5))`
of the record's raw DC coefficient under JavaScript number semantics; every
stored channel of any successful decode is either inside [0,1] — finite raws
clamp into the interval, `+Infinity`/`-Infinity` raws clamp to 1 and 0, the
no-color default is white — or it is NaN, which happens exactly for an IEEE
NaN payload bit pattern (`Math.max(0, Math.min(1, NaN)) = NaN`) and violates
the claimed unconditional [0,1] invariant (see the counterexample). -/
theorem C3_color_clamped (bytes : Buffer) (cl : SplatCloud)
    (h : parsePLY bytes = Except.ok cl) :
    ((ctxOf bytes).hasColor = true →
      ∀ v j : ℕ, j < 3 → 3 * v + j < cl.colors.length →
        cl.colors.get? (3 * v + j) =
          some (clampJS (shToColor (rawValOf (ctxOf bytes) v (fdcSlot (ctxOf bytes) j))))) ∧
    (∀ ch ∈ cl.colors, ch = JSNum.nan ∨ ch.in01 = true) := by
  obtain ⟨_, _, _, _, _, _, hc, _⟩ := parsePLY_ok bytes cl h
  constructor
  · intro hcol v j hj hlt
    rw [hc] at hlt ⊢
    have hlen : ((List.range (loopCount (headerInfo bytes).1)).flatMap
        (colorOf (ctxOf bytes))).length = 3 * loopCount (headerInfo bytes).1 := by
      rw [flatMap_triple_length _ (colorOf_length _), List.length_range]
    rw [hlen] at hlt
    have hv : v < loopCount (headerInfo bytes).1 := by omega
    rw [flatMap_triple_get _ (colorOf_length _) _ v j hv hj]
    exact colorOf_get (ctxOf bytes) v j hcol hj
  · intro ch hch
    rw [hc] at hch
    obtain ⟨i, _, hchi⟩ := List.mem_flatMap.mp hch
    unfold colorOf at hchi
    by_cases hcol : (ctxOf bytes).hasColor = true
    · rw [if_pos hcol] at hchi
      simp only [List.mem_cons, List.not_mem_nil, or_false] at hchi
      rcases hchi with h' | h' | h' <;> (rw [h']; exact clampJS_cases _)
    · rw [if_neg hcol] at hchi
      simp only [List.mem_cons, List.not_mem_nil, or_false] at hchi
      rcases hchi with h' | h' | h' <;>
        (rw [h']; right; with_unfolding_all decide)

set_option maxRecDepth 16000 in
lemma bufColor_parse : parsePLY bufColor = Except.ok cloudColor := by
  with_unfolding_all rfl

set_option maxRecDepth 16000 in
/-- C3 counterexample: a record whose `f_dc_0` bytes encode IEEE NaN decodes
successfully, and the stored channel 0 is NaN — `Math.max(0, Math.min(1,
NaN))` is NaN — which fails the JavaScript range test `0 <= v && v <= 1`, so
the claimed unconditional [0,1] clamp invariant is false of the code. -/
theorem C3_nan_color_cex :
    parsePLY bufNaNColor = Except.ok cloudNaNColor ∧
    cloudNaNColor.colors.get? 0 = some JSNum.nan ∧
    JSNum.in01 JSNum.nan = false := by
  refine ⟨by with_unfolding_all rfl, rfl, rfl⟩

set_option maxRecDepth 16000 in
/-- C3 witness: the amended theorem applied to `bufColor`; channel 0 is the
clamp of 100*C0+0.5 (clamped to 1), channel 1 is exactly 0.5, channel 2 the
clamp of -100*C0+0.5 (clamped to 0), and every channel of this cloud is in
[0,1] (none is NaN). -/
theorem C3_color_clamped_witness :
    parsePLY bufColor = Except.ok cloudColor ∧
    cloudColor.colors.get? 0 =
      some (clampJS (shToColor (rawValOf (ctxOf bufColor) 0 (fdcSlot (ctxOf bufColor) 0)))) ∧
    cloudColor.colors = [1, JSNum.num (1/2), 0] ∧
    (∀ ch ∈ cloudColor.colors, ch = JSNum.nan ∨ ch.in01 = true) ∧
    (∀ ch ∈ cloudColor.colors, ch.in01 = true) := by
  have h := C3_color_clamped bufColor cloudColor bufColor_parse
  refine ⟨bufColor_parse, ?_, rfl, h.2, by intro ch hch; fin_cases hch <;> with_unfolding_all decide⟩
  have h0 := h.1 (by with_unfolding_all decide) 0 0 (by decide) (by decide)
  simpa using h0

lemma sizeVal_of_flags (c : PCtx) (i : ℕ)
    (hop : c.hasOpacity = true) (hsc : c.hasScale = true) :
    sizeVal c i =
      sizeFormula (rawOf c i c.iop) (rawOf c i c.is0) (rawOf c i c.is1)
        (rawOf c i c.is2) := by
  unfold sizeVal
  rw [hop, hsc]
  rfl

/-- C4: when the file provides opacity and scale fields, every stored size is
exactly `cbrt(e^s0 * e^s1 * e^s2) * (1/(1+e^-op)) * 50` — the geometric mean
of the exponentiated scale axes times the logistic of the raw opacity times
the fixed constant 50 — of the record's raw fields. -/
theorem C4_size_formula (bytes : Buffer) (cl : SplatCloud)
    (h : parsePLY bytes = Except.ok cl)
    (hop : (ctxOf bytes).hasOpacity = true) (hsc : (ctxOf bytes).hasScale = true)
    (v : ℕ) (hv : v < cl.sizes.length) :
    cl.sizes.get? v =
      some (sizeFormula (rawOf (ctxOf bytes) v (ctxOf bytes).iop)
        (rawOf (ctxOf bytes) v (ctxOf bytes).is0)
        (rawOf (ctxOf bytes) v (ctxOf bytes).is1)
        (rawOf (ctxOf bytes) v (ctxOf bytes).is2)) := by
  obtain ⟨_, _, _, _, _, _, _, hs⟩ := parsePLY_ok bytes cl h
  rw [hs] at hv ⊢
  rw [List.length_map, List.length_range] at hv
  rw [range_map_get _ _ _ hv, sizeVal_of_flags _ _ hop hsc]

set_option maxRecDepth 16000 in
lemma bufSize_parse : parsePLY bufSize = Except.ok cloudSize := by
  with_unfolding_all rfl

lemma exp_ten_gt : (22026 : ℝ) < Real.exp 10 := by
  have h1 : (2.7182818283 : ℝ) < Real.exp 1 := Real.exp_one_gt_d9
  have h10 : Real.exp 1 ^ (10 : ℕ) = Real.exp 10 := by
    rw [← Real.exp_nat_mul]
    norm_num
  have hp : (2.7182818283 : ℝ) ^ (10 : ℕ) < Real.exp 1 ^ (10 : ℕ) :=
    pow_lt_pow_left h1 (by norm_num) (by norm_num)
  have hc : (22026 : ℝ) < (2.7182818283 : ℝ) ^ (10 : ℕ) := by norm_num
  calc (22026 : ℝ) < (2.7182818283 : ℝ) ^ (10 : ℕ) := hc
    _ < Real.exp 1 ^ (10 : ℕ) := hp
    _ = Real.exp 10 := h10

lemma sizeFormula_inst : sizeFormula 10 0 0 0 = 50 / (1 + Real.exp (-10)) := by
  unfold sizeFormula
  rw [show ((0 : ℚ) : ℝ) = 0 by norm_num, Real.exp_zero,
    show ((10 : ℚ) : ℝ) = 10 by norm_num]
  rw [show (1 : ℝ) * 1 * 1 = 1 by ring, Real.one_rpow]
  ring

lemma sizeFormula_inst_bounds :
    (49997 / 1000 : ℝ) < sizeFormula 10 0 0 0 ∧ sizeFormula 10 0 0 0 < 50 := by
  rw [sizeFormula_inst]
  have hpos : (0 : ℝ) < Real.exp (-10) := Real.exp_pos _
  have hsmall : Real.exp (-10) < 1 / 22026 := by
    rw [Real.exp_neg]
    rw [show (1 : ℝ) / 22026 = (22026 : ℝ)⁻¹ by norm_num]
    exact inv_lt_inv_of_lt (by norm_num) exp_ten_gt
  have hd : (0 : ℝ) < 1 + Real.exp (-10) := by linarith
  constructor
  · rw [lt_div_iff hd]
    nlinarith
  · rw [div_lt_iff hd]
    nlinarith

set_option maxRecDepth 16000 in
/-- C4 witness: the theorem applied to `bufSize`, whose record has opacity
raw 10 and scale raws 0; the decoded size is `sizeFormula 10 0 0 0`, which
lies strictly between 49.997 and 50 (the claim's 0.99995*50 is about
49.9977). -/
theorem C4_size_formula_witness :
    parsePLY bufSize = Except.ok cloudSize ∧
    cloudSize.sizes.get? 0 = some (sizeFormula 10 0 0 0) ∧
    (49997 / 1000 : ℝ) < sizeFormula 10 0 0 0 ∧ sizeFormula 10 0 0 0 < 50 := by
  have h0 := C4_size_formula bufSize cloudSize bufSize_parse
    (by with_unfolding_all decide) (by with_unfolding_all decide) 0 (by decide)
  have hop : rawOf (ctxOf bufSize) 0 (ctxOf bufSize).iop = 10 := by
    with_unfolding_all decide
  have hs0 : rawOf (ctxOf bufSize) 0 (ctxOf bufSize).is0 = 0 := by
    with_unfolding_all decide
  have hs1 : rawOf (ctxOf bufSize) 0 (ctxOf bufSize).is1 = 0 := by
    with_unfolding_all decide
  have hs2 : rawOf (ctxOf bufSize) 0 (ctxOf bufSize).is2 = 0 := by
    with_unfolding_all decide
  rw [hop, hs0, hs1, hs2] at h0
  exact ⟨bufSize_parse, h0, sizeFormula_inst_bounds⟩

lemma range_flatMap_const {β : Type} (f : ℕ → List β) (a : β) (n : ℕ)
    (hf : ∀ i < n, f i = [a, a, a]) :
    (List.range n).flatMap f = List.replicate (3 * n) a := by
  induction n with
  | zero => simp
  | succ n ih =>
    rw [List.range_succ, List.flatMap_append]
    rw [ih (fun i hi => hf i (Nat.lt_succ_of_lt hi))]
    simp only [List.flatMap_cons, List.flatMap_nil, List.append_nil]
    rw [hf n (Nat.lt_succ_self n)]
    rw [show 3 * (n + 1) = 3 * n + 3 by ring, List.replicate_add]
    rfl

lemma range_map_const {β : Type} (f : ℕ → β) (b : β) (n : ℕ)
    (hf : ∀ i < n, f i = b) :
    (List.range n).map f = List.replicate n b := by
  induction n with
  | zero => simp
  | succ n ih =>
    rw [List.range_succ, List.map_append]
    rw [ih (fun i hi => hf i (Nat.lt_succ_of_lt hi))]
    simp only [List.map_cons, List.map_nil]
    rw [hf n (Nat.lt_succ_self n), List.replicate_succ']

lemma ctxOf_fields (bytes : Buffer) :
    (ctxOf bytes).bytes = bytes ∧ (ctxOf bytes).he = headerEndOf bytes ∧
    (ctxOf bytes).stride = (headerInfo bytes).2.length * 4 ∧
    (ctxOf bytes).ix = propIdx (headerInfo bytes).2 "x" ∧
    (ctxOf bytes).iy = propIdx (headerInfo bytes).2 "y" ∧
    (ctxOf bytes).iz = propIdx (headerInfo bytes).2 "z" ∧
    (ctxOf bytes).hasColor = (propIdx (headerInfo bytes).2 "f_dc_0").isSome ∧
    (ctxOf bytes).hasOpacity = (propIdx (headerInfo bytes).2 "opacity").isSome ∧
    (ctxOf bytes).hasScale = (propIdx (headerInfo bytes).2 "scale_0").isSome :=
  ⟨rfl, rfl, rfl, rfl, rfl, rfl, rfl, rfl, rfl⟩

/-- C5: a buffer whose header declares exactly the fields x, y, z (so no
`f_dc_0`, no `opacity`, no `scale_0`), a positive vertex count, and whose
payload covers the declared records, decodes successfully with every color
channel 1 (opaque white) and every size the fixed default 2.0.  The last
hypothesis is the ECMAScript ArrayBuffer size invariant
(`byteLength ≤ 2^53 - 1`, true of every fetched buffer); together with the
payload-coverage hypothesis it keeps the declared count below the
`Float32Array` ToIndex limit, so the allocation at source line 71 cannot
throw. -/
theorem C5_xyz_defaults (bytes : Buffer) (n : ℤ)
    (hprops : (headerInfo bytes).2 = ["x", "y", "z"])
    (hvc : (headerInfo bytes).1 = some n) (hn : 0 < n)
    (hlen : headerEndOf bytes + 12 * n.toNat ≤ bytes.length)
    (hbuf : bytes.length ≤ 2 ^ 53 - 1) :
    ∃ cl, parsePLY bytes = Except.ok cl ∧
      cl.colors = List.replicate (3 * n.toNat) 1 ∧
      cl.sizes = List.replicate n.toNat 2 ∧
      cl.vertexCount = some n := by
  obtain ⟨hby, hhe, hst0, hx0, hy0, hz0, hcol0, hhop0, hhsc0⟩ := ctxOf_fields bytes
  have hst : (ctxOf bytes).stride = 12 := by rw [hst0, hprops]; rfl
  have hx : (ctxOf bytes).ix = some 0 := by rw [hx0, hprops]; decide
  have hy : (ctxOf bytes).iy = some 1 := by rw [hy0, hprops]; decide
  have hz : (ctxOf bytes).iz = some 2 := by rw [hz0, hprops]; decide
  have hcol : (ctxOf bytes).hasColor = false := by rw [hcol0, hprops]; decide
  have hhop : (ctxOf bytes).hasOpacity = false := by rw [hhop0, hprops]; decide
  have hhsc : (ctxOf bytes).hasScale = false := by rw [hhsc0, hprops]; decide
  have hcnt : loopCount (headerInfo bytes).1 = n.toNat := by rw [hvc]; rfl
  have hreads : ∀ i < n.toNat, readsOK (ctxOf bytes) i = true := by
    intro i hi
    rw [readsOK_eq]
    have hinB : ∀ sl : ℕ, sl ≤ 2 →
        inB (ctxOf bytes) (fieldOff (ctxOf bytes) i (some sl)) = true := by
      intro sl hsl
      unfold inB fieldOff jsOff
      rw [hst, hby, hhe]
      have : i * 12 + 4 * sl + 4 ≤ 12 * n.toNat := by omega
      simp only [decide_eq_true_eq]
      omega
    rw [hx, hy, hz]
    rw [hinB 0 (by omega), hinB 1 (by omega), hinB 2 (by omega)]
    unfold colorOK sizeOK
    rw [hcol, hhop]
    rfl
  have hall : (List.range (loopCount (headerInfo bytes).1)).all
      (readsOK (ctxOf bytes)) = true := by
    rw [hcnt, List.all_eq_true]
    intro i hi
    exact hreads i (List.mem_range.mp hi)
  have h0 : (headerInfo bytes).1 ≠ some 0 := by
    rw [hvc]
    intro hcontra
    injection hcontra with hcontra
    omega
  have hneg : arrayLenBad (headerInfo bytes).1 = false := by
    rw [hvc]
    unfold arrayLenBad
    simp only [Bool.or_eq_false_iff, decide_eq_false_iff_not]
    constructor
    · omega
    · omega
  have hle : ¬ bytes.length < headerEndOf bytes := by omega
  refine ⟨⟨(List.range (loopCount (headerInfo bytes).1)).flatMap (posVal (ctxOf bytes)),
    (List.range (loopCount (headerInfo bytes).1)).flatMap (colorOf (ctxOf bytes)),
    (List.range (loopCount (headerInfo bytes).1)).map (sizeVal (ctxOf bytes)),
    (headerInfo bytes).1⟩, ?_, ?_, ?_, ?_⟩
  · unfold parsePLY
    rw [if_neg h0, if_neg hle, hneg]
    simp only [Bool.false_eq_true, if_false]
    rw [decodeLoop_eq, hall]
    rfl
  · rw [hcnt]
    apply range_flatMap_const
    intro i _
    unfold colorOf
    rw [hcol]
    rfl
  · rw [hcnt]
    apply range_map_const
    intro i _
    unfold sizeVal
    rw [hhop]
    rfl
  · rw [hvc]

/-- C5 witness: the theorem applied to the 95-byte x,y,z-only buffer; by
determinism of the parse result the cloud is `cloudXYZ` with white colors and
default sizes. -/
theorem C5_xyz_defaults_witness :
    parsePLY bufXYZ = Except.ok cloudXYZ ∧
    cloudXYZ.colors = List.replicate 3 1 ∧
    cloudXYZ.sizes = List.replicate 1 2 := by
  obtain ⟨cl, hok, hcolors, hsizes, hvc⟩ := C5_xyz_defaults bufXYZ 1
    (by with_unfolding_all decide) (by with_unfolding_all decide) (by norm_num)
    (by with_unfolding_all decide) (by decide)
  rw [bufXYZ_parse] at hok
  injection hok with h
  rw [← h] at hcolors hsizes
  exact ⟨bufXYZ_parse, hcolors, hsizes⟩

/-- C2 (amended): (1) a parsed vertex count of zero fails with the explicit
`Error('No vertices found in PLY')` (not a "truncated point data" error, which
the code never produces); (2) when the declared count passes the
`Float32Array` ToIndex limit but the buffer is too short for the x-field read
of the LAST declared record, the decode fails with the `DataView`
`RangeError` — no out-of-bounds byte is ever read, the failing read throws
instead; (3) a declared count whose tripling exceeds ToIndex's 2^53 - 1
limit (or a negative count) fails at the `Float32Array` allocation of source
line 71 with its `RangeError`, before any read; (4) a successful decode
always returns full-shape arrays, never short ones.  (A buffer shorter than
`headerEnd + count*stride` whose missing bytes cover only fields the loop
never reads can still decode successfully; see the counterexample.) -/
theorem C2_truncation_policy (bytes : Buffer) :
    ((headerInfo bytes).1 = some 0 →
      parsePLY bytes = Except.error (JSErr.thrown "No vertices found in PLY")) ∧
    (∀ n : ℤ, (headerInfo bytes).1 = some n → 0 < n →
      3 * n ≤ 2 ^ 53 - 1 →
      headerEndOf bytes ≤ bytes.length →
      bytes.length - headerEndOf bytes <
        fieldOff (ctxOf bytes) (n.toNat - 1) (ctxOf bytes).ix + 4 →
      parsePLY bytes = Except.error (JSErr.rangeError RangeOp.dataViewRead)) ∧
    (∀ n : ℤ, (headerInfo bytes).1 = some n →
      (n < 0 ∨ 2 ^ 53 - 1 < 3 * n) →
      headerEndOf bytes ≤ bytes.length →
      parsePLY bytes = Except.error (JSErr.rangeError RangeOp.arrayLength)) ∧
    (∀ cl, parsePLY bytes = Except.ok cl →
      cl.positions.length = 3 * loopCount cl.vertexCount ∧
      cl.colors.length = 3 * loopCount cl.vertexCount ∧
      cl.sizes.length = loopCount cl.vertexCount) := by
  refine ⟨parsePLY_zero bytes, ?_, ?_, fun cl h => parsePLY_ok_lengths bytes cl h⟩
  · intro n hvc hn hsz hhe hshort
    obtain ⟨hby, hheq, _, _, _, _, _, _, _⟩ := ctxOf_fields bytes
    apply parsePLY_error_read bytes
    · rw [hvc]
      intro hc
      injection hc with hc
      omega
    · exact hhe
    · rw [hvc]
      unfold arrayLenBad
      simp only [Bool.or_eq_false_iff, decide_eq_false_iff_not]
      constructor
      · omega
      · omega
    · cases hall : (List.range (loopCount (headerInfo bytes).1)).all
          (readsOK (ctxOf bytes))
      · rfl
      · exfalso
        rw [List.all_eq_true] at hall
        have hmem : (n.toNat - 1) ∈ List.range (loopCount (headerInfo bytes).1) := by
          rw [List.mem_range, hvc]
          show n.toNat - 1 < n.toNat
          omega
        have hro := hall _ hmem
        rw [readsOK_eq] at hro
        simp only [Bool.and_eq_true] at hro
        have hx := hro.1.1.1.1
        unfold inB at hx
        rw [hby, hheq] at hx
        simp only [decide_eq_true_eq] at hx
        omega
  · intro n hvc hbad hhe
    have h0 : (headerInfo bytes).1 ≠ some 0 := by
      rw [hvc]
      intro hc
      injection hc with hc
      omega
    have hlenbad : arrayLenBad (headerInfo bytes).1 = true := by
      rw [hvc]
      unfold arrayLenBad
      rcases hbad with hneg | hbig
      · simp only [Bool.or_eq_true, decide_eq_true_eq]
        exact Or.inl hneg
      · simp only [Bool.or_eq_true, decide_eq_true_eq]
        exact Or.inr hbig
    unfold parsePLY
    rw [if_neg h0, if_neg (Nat.not_lt.mpr hhe), hlenbad]
    rfl

set_option maxRecDepth 16000 in
/-- C2 counterexample: `bufHalf` is truncated to half its declared payload
(`length - headerEnd = 12` against `count*stride = 24`), yet the decoder
SUCCEEDS and returns a full point cloud — it does not fail with any error, in
particular not with `MalformedInputError("truncated point data")`. -/
theorem C2_half_truncated_cex :
    parsePLY bufHalf = Except.ok cloudHalf ∧
    bufHalf.length < headerEndOf bufHalf +
      loopCount (headerInfo bufHalf).1 * (ctxOf bufHalf).stride ∧
    bufHalf.length - headerEndOf bufHalf = 12 ∧
    loopCount (headerInfo bufHalf).1 * (ctxOf bufHalf).stride = 24 := by
  refine ⟨by with_unfolding_all rfl, by with_unfolding_all decide,
    by with_unfolding_all decide, by with_unfolding_all decide⟩

set_option maxRecDepth 16000 in
/-- C2 witness: the amended theorem applied at a zero-count buffer, at a
truncated-beyond-first-read buffer, at a buffer declaring 2^53 vertices
(whose tripled length passes the ToIndex limit, so the allocation throws),
and at the successful `bufXYZ`. -/
theorem C2_truncation_policy_witness :
    parsePLY bufZero = Except.error (JSErr.thrown "No vertices found in PLY") ∧
    parsePLY bufCut = Except.error (JSErr.rangeError RangeOp.dataViewRead) ∧
    parsePLY bufHuge = Except.error (JSErr.rangeError RangeOp.arrayLength) ∧
    (cloudXYZ.positions.length = 3 * loopCount cloudXYZ.vertexCount ∧
      cloudXYZ.colors.length = 3 * loopCount cloudXYZ.vertexCount ∧
      cloudXYZ.sizes.length = loopCount cloudXYZ.vertexCount) :=
  ⟨(C2_truncation_policy bufZero).1 (by with_unfolding_all decide),
    (C2_truncation_policy bufCut).2.1 1 (by with_unfolding_all decide)
      (by norm_num) (by norm_num) (by with_unfolding_all decide)
      (by with_unfolding_all decide),
    (C2_truncation_policy bufHuge).2.2.1 9007199254740992
      (by with_unfolding_all rfl) (Or.inr (by norm_num))
      (by with_unfolding_all decide),
    (C2_truncation_policy bufXYZ).2.2.2 cloudXYZ bufXYZ_parse⟩

/-- C6 (amended): when the `end_header` token never matches inside the
scanned range, `headerEnd` stays 0, the decoded header text is empty, the
vertex count stays 0, and the decoder fails with
`Error('No vertices found in PLY')` — it never returns a point cloud, but the
message is not "no header terminator" (no such error exists in the code). -/
theorem C6_no_sentinel (bytes : Buffer) (h : findSentinel bytes = none) :
    parsePLY bytes = Except.error (JSErr.thrown "No vertices found in PLY") := by
  apply parsePLY_zero
  have hhe : headerEndOf bytes = 0 := by
    unfold headerEndOf
    rw [h]
  unfold headerInfo
  rw [hhe, List.take_zero]
  with_unfolding_all decide

/-- C6 counterexample: on a sentinel-free buffer the decoder does fail — but
with the message `No vertices found in PLY`, not the claimed
`no header terminator`; no site in `parsePLY` produces the claimed message. -/
theorem C6_message_cex :
    parsePLY bufNoHdr = Except.error (JSErr.thrown "No vertices found in PLY") ∧
    JSErr.thrown "No vertices found in PLY" ≠ JSErr.thrown "no header terminator" :=
  ⟨by with_unfolding_all rfl, by decide⟩

/-- C6 witness: the amended theorem applied to the concrete sentinel-free
buffer. -/
theorem C6_no_sentinel_witness :
    findSentinel bufNoHdr = none ∧
    parsePLY bufNoHdr = Except.error (JSErr.thrown "No vertices found in PLY") :=
  ⟨by with_unfolding_all decide, C6_no_sentinel bufNoHdr (by with_unfolding_all decide)⟩

/-- C10: any fetched buffer under 100 bytes is rejected at the size guard
with the fixed error state string — the guard precedes the `parsePLY` call,
so the result is this error regardless of what the decoder would return. -/
theorem C10_small_buffer_rejected (bytes : Buffer) (h : bytes.length < 100) :
    viewerLoad bytes =
      Except.error "Failed to load 3D model: PLY file is empty or too small" := by
  unfold viewerLoad
  rw [if_pos h]
  rfl

/-- C10 witness: `bufXYZ` is 95 bytes and decodes fine (`parsePLY` succeeds
on it), yet the viewer refuses it with the empty-or-too-small error. -/
theorem C10_small_buffer_rejected_witness :
    bufXYZ.length = 95 ∧
    viewerLoad bufXYZ =
      Except.error "Failed to load 3D model: PLY file is empty or too small" ∧
    parsePLY bufXYZ = Except.ok cloudXYZ :=
  ⟨by decide, C10_small_buffer_rejected bufXYZ (by decide), bufXYZ_parse⟩

/-- C8 counterexample: the claimed teardown order starts by stopping the
render loop before releasing the resize subscription, but the source's
cleanup closure removes the resize listener FIRST and cancels the animation
frame second. -/
theorem C8_order_cex :
    cleanupActions.head? = some Teardown.removeResizeListener ∧
    Teardown.removeResizeListener ≠ Teardown.cancelFrame ∧
    ¬ cleanupActions.indexOf Teardown.cancelFrame <
        cleanupActions.indexOf Teardown.removeResizeListener := by
  decide

/-- C8 (amended): the teardown performs, in this order: release the resize
subscription, stop the render loop, release the camera-control object, detach
the canvas from the container, dispose the renderer, dispose the geometry
buffer, dispose the material — each dispose exactly once per load; and in the
lifecycle model no frame is rendered after the cancel-frame teardown step
runs. -/
theorem C8_teardown_order :
    cleanupActions.indexOf Teardown.removeResizeListener = 0 ∧
    cleanupActions.indexOf Teardown.cancelFrame = 1 ∧
    cleanupActions.indexOf Teardown.disposeControls = 2 ∧
    cleanupActions.indexOf Teardown.removeCanvas = 3 ∧
    cleanupActions.indexOf Teardown.disposeRenderer = 4 ∧
    cleanupActions.indexOf Teardown.disposeGeometry = 5 ∧
    cleanupActions.indexOf Teardown.disposeMaterial = 6 ∧
    cleanupActions.count Teardown.disposeRenderer = 1 ∧
    cleanupActions.count Teardown.disposeGeometry = 1 ∧
    cleanupActions.count Teardown.disposeMaterial = 1 ∧
    ((unmountDuringFetchTrace.dropWhile
        (fun e => e ≠ VEvent.runTeardown Teardown.cancelFrame)).filter
        (fun e => e = VEvent.renderFrame)) = [] := by
  decide

/-- C9: the code violates the cancellation requirement.  In the
unmount-during-fetch trace, the destructor's cleanup call strictly precedes
both a state update (`setPointCount`) and a rendered frame of the superseded
load: the late response is NOT discarded, because init has no abort signal or
generation check and `cleanup.then` merely delays teardown until init has
already finished. -/
theorem C9_no_cancellation :
    unmountDuringFetchTrace.indexOf VEvent.unmountCleanupCall <
      unmountDuringFetchTrace.indexOf (VEvent.stateUpdate "pointCount") ∧
    VEvent.stateUpdate "pointCount" ∈ unmountDuringFetchTrace ∧
    unmountDuringFetchTrace.indexOf VEvent.unmountCleanupCall <
      unmountDuringFetchTrace.indexOf VEvent.renderFrame ∧
    VEvent.renderFrame ∈ unmountDuringFetchTrace := by
  decide
